import Mathlib

/-!
Verification of the gsutil `cp` command orchestration core
(`gslib/commands/cp.py`): option parsing, the per-task copy/move
executor `CopyFunc`, the dispatch loop and the final result
aggregation.  Collaborator calls (transfer engine, name expansion,
storage client, filesystem) are modelled as oracle inputs carried on
each task; the control flow of `cp.py` itself is translated branch by
branch.
-/

/-- Kind of a storage URL: a cloud object reference or a local file path. -/
inductive UrlKind
  | cloud
  | file
deriving DecidableEq

/-- A storage URL as used by `cp.py` (`StorageUrl` from `gslib.storage_url`):
only the observers that `cp.py` calls are modelled, as fields or as
derived predicates. -/
structure StorageUrl where
  kind : UrlKind
  scheme : String
  bucket_name : String
  object_name : String
  generation : Option Nat
  is_stream : Bool
  is_fifo : Bool
  url_string : String
deriving DecidableEq

def StorageUrl.IsCloudUrl (u : StorageUrl) : Bool := u.kind == UrlKind.cloud

def StorageUrl.IsFileUrl (u : StorageUrl) : Bool := u.kind == UrlKind.file

/-- Modelled from the spec: `CloudUrl.IsProvider` (in `gslib.storage_url`,
not under `src/`) — a provider-only cloud locator, i.e. one with no
bucket/object component. -/
def StorageUrl.IsProvider (u : StorageUrl) : Bool :=
  u.IsCloudUrl && (u.bucket_name == "")

def StorageUrl.HasGeneration (u : StorageUrl) : Bool := u.generation.isSome

/-- Whether a string ends with the container separator character. -/
def endsWithSlash (s : String) : Bool :=
  match s.data.getLast? with
  | some c => c == '/'
  | none => false

/-- Modelled from the spec: `IsCloudSubdirPlaceholder` (in
`gslib.storage_url`, not under `src/`) — a synthetic cloud
sub-directory placeholder marker object, i.e. a cloud object whose name
ends with the container separator. -/
def IsCloudSubdirPlaceholder (u : StorageUrl) : Bool :=
  u.IsCloudUrl && endsWithSlash u.object_name

/-- Python truthiness of an optional string option value: set and nonempty. -/
def truthyOptStr : Option String → Bool
  | none => false
  | some s => !(s == "")

/-- The sentinel `GZIP_ALL_FILES` used for the `-J`/`-Z` flags. -/
def GZIP_ALL_FILES : String := "GZIP_ALL_FILES"

/-- The local state accumulated by `CpCommand._ParseOpts` while walking
`sub_opts` (both the locals that end up in `CopyHelperOpts` and the
attributes stored on the command object). -/
structure ParseState where
  perform_mv : Bool := false
  exclude_symlinks : Bool := false
  no_clobber : Bool := false
  continue_on_error : Bool := false
  daisy_chain : Bool := false
  read_args_from_stdin : Bool := false
  print_ver : Bool := false
  use_manifest : Bool := false
  preserve_acl : Bool := false
  preserve_posix_attrs : Bool := false
  canned_acl : Option String := none
  all_versions : Bool := false
  skip_unsupported_objects : Bool := false
  gzip_encoded : Bool := false
  gzip_local : Bool := false
  gzip_arg_exts : Option (List String) := none
  gzip_arg_all : Option String := none
  dest_storage_class : Option String := none
  use_stet : Bool := false
  recursion_requested : Bool := false
deriving DecidableEq

/-- The `-j`/`-z` extension-list argument: `a.split(',')` with each part
stripped (never an empty list, matching Python `str.split`). -/
def splitExts (a : String) : List String :=
  List.map String.trim (a.splitOn ",")

/-- One step of the flag loop in `CpCommand._ParseOpts` (the `if o == ...`
chain over `self.sub_opts`). -/
def applyOpt (ps : ParseState) (oa : String × String) : ParseState :=
  let o := oa.1
  let a := oa.2
  if o == "-a" then { ps with canned_acl := some a }
  else if o == "-A" then { ps with all_versions := true }
  else if o == "-c" then { ps with continue_on_error := true }
  else if o == "-D" then { ps with daisy_chain := true }
  else if o == "-e" then { ps with exclude_symlinks := true }
  else if o == "-I" then { ps with read_args_from_stdin := true }
  else if o == "-j" then
    { ps with gzip_encoded := true, gzip_arg_exts := some (splitExts a) }
  else if o == "-J" then
    { ps with gzip_encoded := true, gzip_arg_all := some GZIP_ALL_FILES }
  else if o == "-L" then { ps with use_manifest := true }
  else if o == "-M" then { ps with perform_mv := true }
  else if o == "-n" then { ps with no_clobber := true }
  else if o == "-p" then { ps with preserve_acl := true }
  else if o == "-P" then { ps with preserve_posix_attrs := true }
  else if o == "-r" || o == "-R" then { ps with recursion_requested := true }
  else if o == "-s" then { ps with dest_storage_class := some a }
  else if o == "-U" then { ps with skip_unsupported_objects := true }
  else if o == "-v" then { ps with print_ver := true }
  else if o == "-z" then
    { ps with gzip_local := true, gzip_arg_exts := some (splitExts a) }
  else if o == "-Z" then
    { ps with gzip_local := true, gzip_arg_all := some GZIP_ALL_FILES }
  else if o == "--stet" then { ps with use_stet := true }
  else ps

/-- The flag loop of `_ParseOpts` over the whole `sub_opts` list. -/
def foldOpts (sub_opts : List (String × String)) : ParseState :=
  List.foldl applyOpt {} sub_opts

/-- The validation block at the end of `CpCommand._ParseOpts`
(`cp.py` lines 1257-1275): each conflicting combination raises a
`CommandException` with the message from the source. -/
def checkOpts (parallel_operations : Bool) (ps : ParseState) :
    Except String ParseState :=
  if ps.preserve_acl && truthyOptStr ps.canned_acl then
    Except.error "Specifying both the -p and -a options together is invalid."
  else if ps.all_versions && parallel_operations then
    Except.error
      "The gsutil -m option is not supported with the cp -A flag, to ensure that object version ordering is preserved. Please re-run the command without the -m option."
  else if ps.gzip_encoded && ps.gzip_local then
    Except.error "Specifying both the -j/-J and -z/-Z options together is invalid."
  else if ps.gzip_arg_exts.isSome && ps.gzip_arg_all.isSome then
    if ps.gzip_encoded then
      Except.error "Specifying both the -j and -J options together is invalid."
    else
      Except.error "Specifying both the -z and -Z options together is invalid."
  else
    Except.ok ps

/-- `CpCommand._ParseOpts`: fold the flags, then validate. -/
def parseOpts (sub_opts : List (String × String)) (parallel_operations : Bool) :
    Except String ParseState :=
  checkOpts parallel_operations (foldOpts sub_opts)

/-- A manifest as loaded with `-L`: an association list from source URL
string to record status (`""` pending, `"OK"`, `"skip"`, `"error"`). -/
abbrev ManifestModel := List (String × String)

def manifestLookup : ManifestModel → String → Option String
  | [], _ => none
  | (k, v) :: rest, url => if k == url then some v else manifestLookup rest url

/-- Modelled from the spec: `Manifest.WasSuccessful` (in
`gslib.utils.copy_helper`, not under `src/`) — a source is recorded as
successfully completed when its manifest record status is `OK` or
`skip`. -/
def wasSuccessful (m : ManifestModel) (url : String) : Bool :=
  match manifestLookup m url with
  | some s => s == "OK" || s == "skip"
  | none => false

def manifestUpsert : ManifestModel → String → String → ManifestModel
  | [], url, status => [(url, status)]
  | (k, v) :: rest, url, status =>
    if k == url then (k, status) :: rest
    else (k, v) :: manifestUpsert rest url status

/-- The per-task fields of `copy_object_info` (a
`CopyObjectInfo` produced by name expansion) that `CopyFunc` reads. -/
structure CopyObjectInfo where
  source_storage_url : StorageUrl
  expanded_storage_url : StorageUrl
  names_container : Bool
  is_multi_source_request : Bool
  exp_dst_url : StorageUrl
  have_existing_dst_container : Bool
  expanded_result_present : Bool
deriving DecidableEq

/-- The signal returned or raised by the transfer engine
`copy_helper.PerformCopy` for one task (collaborator oracle). -/
inductive PerformCopyResult
  | success (bytes : Nat) (md5_present : Bool)
  | itemExists
  | skipUnsupported
  | fileConcurrencySkip
  | otherError (is_no_clobber_server : Bool)
deriving DecidableEq

/-- One expanded copy task together with the outcomes of every
collaborator call `CopyFunc` makes on it (oracles for
`InsistDstUrlNamesContainer`, `os.path.exists`/`os.makedirs`,
`ConstructDstUrl`, `CheckForDirFileConflict`, `SrcDstSame`,
POSIX-permission validation, `PerformCopy` and the source deletion). -/
structure TaskInput where
  info : CopyObjectInfo
  insist_container_ok : Bool
  dst_dir_exists : Bool
  makedirs_ok : Bool
  dst_url : StorageUrl
  dir_file_conflict : Bool
  src_dst_same : Bool
  posix_perm_valid : Bool
  perform_copy : PerformCopyResult
  delete_ok : Bool
deriving DecidableEq

/-- Reason attached to a skipped (non-failure, non-success) task outcome. -/
inductive SkipReason
  | placeholder
  | manifestResume
  | noclobber
  | unsupportedType
  | concurrencyConflict
deriving DecidableEq

/-- An exception propagating out of `CopyFunc`, identified by raise site. -/
inductive CpException
  | providerOnlySource
  | posixWithStream
  | parallelWithStream
  | insistContainerFailed
  | makedirsFailed
  | dirFileConflict
  | srcDstSame
  | versionSpecificDst
  | storageClassNonCloud
  | orphanFiles
  | performCopyFailure
  | deletionFailure
deriving DecidableEq

/-- The terminal outcome of one `CopyFunc` invocation. -/
inductive TaskOutcome
  | success (bytes : Nat)
  | skipped (reason : SkipReason)
  | failedCounted
  | raised (e : CpException)
deriving DecidableEq

/-- The observable result of one `CopyFunc` invocation: its outcome plus
every externally visible effect (manifest writes, failure-counter
increment, source deletion, shared-stats increment, recursion flag). -/
structure CopyFuncResult where
  outcome : TaskOutcome
  performCopyInvoked : Bool
  manifestInit : Bool
  manifestMd5 : Bool
  manifestSetResult : Option (Nat × String)
  opFailureIncr : Nat
  sourceDeleted : Bool
  bytesAdded : Option Nat
  recursionForced : Bool
deriving DecidableEq

/-- A result with the given outcome and no effects at all (the shape of
every early `return`/`raise` before the manifest and transfer steps). -/
def noEffect (o : TaskOutcome) : CopyFuncResult :=
  { outcome := o
    performCopyInvoked := false
    manifestInit := false
    manifestMd5 := false
    manifestSetResult := none
    opFailureIncr := 0
    sourceDeleted := false
    bytesAdded := none
    recursionForced := false }

/-- The mutable command state that `CopyFunc` reads and updates across
tasks: the parsed configuration, the parallel flag, the (mutable)
recursion flag, the manifest, and the two shared counters. -/
structure CpState where
  cfg : ParseState
  parallel_operations : Bool
  recursion_requested : Bool
  manifest : ManifestModel
  op_failure_count : Nat
  total_bytes_transferred : Nat
deriving DecidableEq

/-- The preflight checks of `CopyFunc` that precede the placeholder and
manifest-resume early returns (`cp.py` lines 791-803), in source order:
provider-only source, POSIX preservation on a stream, parallel mode on a
stream, and `InsistDstUrlNamesContainer` for multi-source requests. -/
def earlyCheck (st : CpState) (t : TaskInput) : Option CpException :=
  let src := t.info.source_storage_url
  if src.IsCloudUrl && src.IsProvider then some CpException.providerOnlySource
  else if st.cfg.preserve_posix_attrs && src.IsFileUrl && src.is_stream then
    some CpException.posixWithStream
  else if st.parallel_operations && src.IsFileUrl && src.is_stream then
    some CpException.parallelWithStream
  else if t.info.is_multi_source_request && !t.insist_container_ok then
    some CpException.insistContainerFailed
  else none

/-- Presence of `src_obj_metadata` when the POSIX validation block runs
(`cp.py` lines 866-887): prefetched expansion metadata, or metadata
synthesized for a local source under `-P`. -/
def srcObjMetadataPresent (st : CpState) (t : TaskInput) : Bool :=
  t.info.expanded_result_present ||
    (t.info.source_storage_url.IsFileUrl && st.cfg.preserve_posix_attrs)

/-- The checks of `CopyFunc` between the early returns and the `try`
block (`cp.py` lines 830-900), in source order: destination directory
creation, dir/file conflict, self-copy, version-pinned cloud
destination, storage class on a non-cloud destination, and POSIX
permission validation. -/
def midChecks (st : CpState) (t : TaskInput) : Option CpException :=
  if t.info.exp_dst_url.IsFileUrl && !t.dst_dir_exists &&
      t.info.is_multi_source_request && !t.makedirs_ok then
    some CpException.makedirsFailed
  else if t.dir_file_conflict then some CpException.dirFileConflict
  else if t.src_dst_same then some CpException.srcDstSame
  else if t.dst_url.IsCloudUrl && t.dst_url.HasGeneration then
    some CpException.versionSpecificDst
  else if !t.dst_url.IsCloudUrl && truthyOptStr st.cfg.dest_storage_class then
    some CpException.storageClassNonCloud
  else if srcObjMetadataPresent st t && t.dst_url.IsFileUrl &&
      st.cfg.preserve_posix_attrs && !t.posix_perm_valid then
    some CpException.orphanFiles
  else none

/-- The `try`/`except`/`else` block of `CopyFunc` (`cp.py` lines
902-978): manifest initialization, `PerformCopy`, outcome
interpretation, move deletion, and the shared-stats increment. -/
def mainTransfer (st : CpState) (t : TaskInput) (rforced : Bool) :
    CopyFuncResult :=
  let um := st.cfg.use_manifest
  match t.perform_copy with
  | PerformCopyResult.success bytes md5p =>
    if st.cfg.perform_mv then
      if t.delete_ok then
        { outcome := TaskOutcome.success bytes
          performCopyInvoked := true
          manifestInit := um
          manifestMd5 := um && md5p
          manifestSetResult := if um then some (bytes, "OK") else none
          opFailureIncr := 0
          sourceDeleted := true
          bytesAdded := some bytes
          recursionForced := rforced }
      else
        { outcome := TaskOutcome.raised CpException.deletionFailure
          performCopyInvoked := true
          manifestInit := um
          manifestMd5 := um && md5p
          manifestSetResult := if um then some (bytes, "OK") else none
          opFailureIncr := 0
          sourceDeleted := false
          bytesAdded := none
          recursionForced := rforced }
    else
      { outcome := TaskOutcome.success bytes
        performCopyInvoked := true
        manifestInit := um
        manifestMd5 := um && md5p
        manifestSetResult := if um then some (bytes, "OK") else none
        opFailureIncr := 0
        sourceDeleted := false
        bytesAdded := some bytes
        recursionForced := rforced }
  | PerformCopyResult.itemExists =>
    { outcome := TaskOutcome.skipped SkipReason.noclobber
      performCopyInvoked := true
      manifestInit := um
      manifestMd5 := false
      manifestSetResult := if um then some (0, "skip") else none
      opFailureIncr := 0
      sourceDeleted := false
      bytesAdded := some 0
      recursionForced := rforced }
  | PerformCopyResult.skipUnsupported =>
    { outcome := TaskOutcome.skipped SkipReason.unsupportedType
      performCopyInvoked := true
      manifestInit := um
      manifestMd5 := false
      manifestSetResult := if um then some (0, "skip") else none
      opFailureIncr := 0
      sourceDeleted := false
      bytesAdded := some 0
      recursionForced := rforced }
  | PerformCopyResult.fileConcurrencySkip =>
    { outcome := TaskOutcome.skipped SkipReason.concurrencyConflict
      performCopyInvoked := true
      manifestInit := um
      manifestMd5 := false
      manifestSetResult := none
      opFailureIncr := 0
      sourceDeleted := false
      bytesAdded := some 0
      recursionForced := rforced }
  | PerformCopyResult.otherError noclb =>
    if st.cfg.no_clobber && noclb then
      { outcome := TaskOutcome.skipped SkipReason.noclobber
        performCopyInvoked := true
        manifestInit := um
        manifestMd5 := false
        manifestSetResult := if um then some (0, "skip") else none
        opFailureIncr := 0
        sourceDeleted := false
        bytesAdded := some 0
        recursionForced := rforced }
    else if st.cfg.continue_on_error then
      { outcome := TaskOutcome.failedCounted
        performCopyInvoked := true
        manifestInit := um
        manifestMd5 := false
        manifestSetResult := if um then some (0, "error") else none
        opFailureIncr := 1
        sourceDeleted := false
        bytesAdded := some 0
        recursionForced := rforced }
    else
      { outcome := TaskOutcome.raised CpException.performCopyFailure
        performCopyInvoked := true
        manifestInit := um
        manifestMd5 := false
        manifestSetResult := if um then some (0, "error") else none
        opFailureIncr := 0
        sourceDeleted := false
        bytesAdded := none
        recursionForced := rforced }

/-- `CpCommand.CopyFunc` (`cp.py` lines 777-978): preflight checks, the
placeholder and manifest-resume early returns, the recursion forcing
for directory moves, the pre-transfer checks, then the transfer block. -/
def copyFunc (st : CpState) (t : TaskInput) : CopyFuncResult :=
  match earlyCheck st t with
  | some e => noEffect (TaskOutcome.raised e)
  | none =>
    if IsCloudSubdirPlaceholder t.info.expanded_storage_url then
      noEffect (TaskOutcome.skipped SkipReason.placeholder)
    else if st.cfg.use_manifest &&
        wasSuccessful st.manifest t.info.expanded_storage_url.url_string then
      noEffect (TaskOutcome.skipped SkipReason.manifestResume)
    else
      let rforced := st.cfg.perform_mv && t.info.names_container
      match midChecks st t with
      | some e =>
        { noEffect (TaskOutcome.raised e) with recursionForced := rforced }
      | none => mainTransfer st t rforced

/-- Apply the manifest effects of one task result to the manifest
(`Manifest.Initialize` then `Manifest.SetResult`, keyed by the expanded
source URL string). -/
def applyManifestEffects (m : ManifestModel) (url : String)
    (r : CopyFuncResult) : ManifestModel :=
  let m1 := if r.manifestInit then manifestUpsert m url "" else m
  match r.manifestSetResult with
  | some bs => manifestUpsert m1 url bs.2
  | none => m1

/-- Fold one task result into the command state: recursion flag,
manifest, `op_failure_count` and `total_bytes_transferred` (the
increment under `stats_lock`). -/
def updateState (st : CpState) (t : TaskInput) (r : CopyFuncResult) : CpState :=
  { st with
    recursion_requested := st.recursion_requested || r.recursionForced
    manifest :=
      applyManifestEffects st.manifest t.info.expanded_storage_url.url_string r
    op_failure_count := st.op_failure_count + r.opFailureIncr
    total_bytes_transferred :=
      st.total_bytes_transferred + (Option.getD r.bytesAdded 0) }

/-- Modelled from the spec: the error taxonomy of section 7 — only
ConfigurationError (the flag/malformed-task raises) and
PostCopyDeletionFailure bypass continue-on-error at the dispatcher. -/
def bypassesContinueOnError : CpException → Bool
  | CpException.providerOnlySource => true
  | CpException.posixWithStream => true
  | CpException.parallelWithStream => true
  | CpException.versionSpecificDst => true
  | CpException.storageClassNonCloud => true
  | CpException.orphanFiles => true
  | CpException.deletionFailure => true
  | _ => false

/-- Modelled from the spec: `Command.Apply` (in `gslib/command.py`, not
under `src/`) applying `CopyFunc` across the task iterator.  In
fail-fast mode (`fail_on_error`, i.e. continue-on-error off) the first
propagated exception terminates dispatch; in continue mode a propagated
exception is passed to `_CopyExceptionHandler` (which increments
`op_failure_count`) and dispatch continues, except for the taxonomy
classes that bypass continue-on-error, which terminate the run. -/
def applyTasks (fail_on_error : Bool) (st : CpState) :
    List TaskInput → CpState × List CopyFuncResult × Option CpException
  | [] => (st, [], none)
  | t :: rest =>
    let r := copyFunc st t
    let st1 := updateState st t r
    match r.outcome with
    | TaskOutcome.raised e =>
      if fail_on_error || bypassesContinueOnError e then (st1, [r], some e)
      else
        let st2 := { st1 with op_failure_count := st1.op_failure_count + 1 }
        let res := applyTasks fail_on_error st2 rest
        (res.1, r :: res.2.1, res.2.2)
    | _ =>
      let res := applyTasks fail_on_error st1 rest
      (res.1, r :: res.2.1, res.2.2)

/-- Result of a whole `RunCommand` invocation. -/
inductive RunResult
  | ok
  | catDelegated
  | configError (msg : String)
  | raised (e : CpException)
  | batchFailure (count : Nat) (msg : String)
deriving DecidableEq

/-- The final `CommandException` message of `RunCommand` (`cp.py` lines
1148-1152). -/
def batchFailureMessage (count : Nat) : String :=
  let pl := if count > 1 then "s" else ""
  toString count ++ " file" ++ pl ++ "/object" ++ pl ++
    " could not be transferred."

/-- Observable report of a run: final result, the per-task result trace,
whether the seek-ahead iterator was constructed, and the final failure
counter. -/
structure RunReport where
  result : RunResult
  trace : List CopyFuncResult
  seekAheadConstructed : Bool
  op_failure_count : Nat
deriving DecidableEq

/-- The dispatch-and-aggregate tail of `RunCommand` (`cp.py` lines
1116-1154): run `Apply` over the tasks, then raise a count-bearing
`CommandException` when `op_failure_count` is nonzero, else return 0. -/
def dispatchAndFinish (fail_on_error : Bool) (st : CpState)
    (tasks : List TaskInput) (seek : Bool) : RunReport :=
  let res := applyTasks fail_on_error st tasks
  match res.2.2 with
  | some e =>
    { result := RunResult.raised e
      trace := res.2.1
      seekAheadConstructed := seek
      op_failure_count := res.1.op_failure_count }
  | none =>
    if res.1.op_failure_count > 0 then
      { result :=
          RunResult.batchFailure res.1.op_failure_count
            (batchFailureMessage res.1.op_failure_count)
        trace := res.2.1
        seekAheadConstructed := seek
        op_failure_count := res.1.op_failure_count }
    else
      { result := RunResult.ok
        trace := res.2.1
        seekAheadConstructed := seek
        op_failure_count := res.1.op_failure_count }

/-- Initial command state at the top of the dispatch phase of
`RunCommand`: counters zeroed, recursion flag from the parsed options,
manifest loaded only under `-L`. -/
def initState (cfg : ParseState) (parallel : Bool)
    (manifest0 : ManifestModel) : CpState :=
  { cfg := cfg
    parallel_operations := parallel
    recursion_requested := cfg.recursion_requested
    manifest := if cfg.use_manifest then manifest0 else []
    op_failure_count := 0
    total_bytes_transferred := 0 }

/-- `CpCommand.RunCommand` (`cp.py` lines 1044-1154): parse options,
delegate to cat for a stdout/fifo destination, check argument counts for
stream and normal mode, construct the seek-ahead iterator only outside
stream mode, dispatch the tasks and aggregate the result.  `dst0` is the
oracle for `StorageUrlFromString(args[-1])`; `tasks` and `manifest0` are
the collaborator oracles for name expansion and the loaded manifest. -/
def runCommand (sub_opts : List (String × String)) (parallel : Bool)
    (args : List String) (dst0 : StorageUrl) (manifest0 : ManifestModel)
    (tasks : List TaskInput) : RunReport :=
  match parseOpts sub_opts parallel with
  | Except.error msg =>
    { result := RunResult.configError msg
      trace := []
      seekAheadConstructed := false
      op_failure_count := 0 }
  | Except.ok cfg =>
    if dst0.IsFileUrl && (dst0.object_name == "-" || dst0.is_fifo) then
      if cfg.preserve_posix_attrs then
        { result :=
            RunResult.configError
              "Cannot preserve POSIX attributes with a stream or a named pipe."
          trace := []
          seekAheadConstructed := false
          op_failure_count := 0 }
      else
        { result := RunResult.catDelegated
          trace := []
          seekAheadConstructed := false
          op_failure_count := 0 }
    else if cfg.read_args_from_stdin && !(args.length == 1) then
      { result :=
          RunResult.configError "Source URLs cannot be specified with -I option"
        trace := []
        seekAheadConstructed := false
        op_failure_count := 0 }
    else if !cfg.read_args_from_stdin && args.length < 2 then
      { result :=
          RunResult.configError "Wrong number of arguments for \"cp\" command."
        trace := []
        seekAheadConstructed := false
        op_failure_count := 0 }
    else
      dispatchAndFinish (!cfg.continue_on_error)
        (initState cfg parallel manifest0) tasks
        (!cfg.read_args_from_stdin)

/-- Whether a task result is a counted transfer failure (the
continue-on-error branch of the `except` clause). -/
def isFailedCounted (r : CopyFuncResult) : Bool :=
  match r.outcome with
  | TaskOutcome.failedCounted => true
  | _ => false

/-- Whether a task result propagates an exception. -/
def isRaisedResult (r : CopyFuncResult) : Bool :=
  match r.outcome with
  | TaskOutcome.raised _ => true
  | _ => false

section PerTaskLemmas

/-- The failure counter is incremented by `CopyFunc` itself exactly on the
counted continue-on-error branch. -/
theorem mainTransfer_opFailureIncr (st : CpState) (t : TaskInput)
    (rforced : Bool) :
    (mainTransfer st t rforced).opFailureIncr =
      (if isFailedCounted (mainTransfer st t rforced) then 1 else 0) := by
  unfold mainTransfer
  cases h : t.perform_copy <;> dsimp only <;> (repeat' split) <;>
    simp_all [isFailedCounted]

theorem copyFunc_opFailureIncr (st : CpState) (t : TaskInput) :
    (copyFunc st t).opFailureIncr =
      (if isFailedCounted (copyFunc st t) then 1 else 0) := by
  unfold copyFunc
  cases h : earlyCheck st t
  · dsimp only
    split
    · rfl
    · split
      · rfl
      · cases h2 : midChecks st t
        · dsimp only
          exact mainTransfer_opFailureIncr st t _
        · rfl
  · rfl

/-- A task whose outcome is not a success adds nothing to the shared
byte counter. -/
theorem mainTransfer_bytes_of_not_success (st : CpState) (t : TaskInput)
    (rforced : Bool)
    (h : ∀ b, (mainTransfer st t rforced).outcome ≠ TaskOutcome.success b) :
    Option.getD (mainTransfer st t rforced).bytesAdded 0 = 0 := by
  revert h
  unfold mainTransfer
  cases hpc : t.perform_copy <;> dsimp only <;> (repeat' split) <;>
    intro h <;> first | rfl | exact absurd rfl (h _)

theorem copyFunc_bytes_of_not_success (st : CpState) (t : TaskInput)
    (h : ∀ b, (copyFunc st t).outcome ≠ TaskOutcome.success b) :
    Option.getD (copyFunc st t).bytesAdded 0 = 0 := by
  revert h
  unfold copyFunc
  cases he : earlyCheck st t
  · dsimp only
    split
    · intro h; rfl
    · split
      · intro h; rfl
      · cases h2 : midChecks st t
        · dsimp only
          exact mainTransfer_bytes_of_not_success st t _
        · intro h; rfl
  · intro h; rfl

/-- With `perform_mv` set, the source is deleted exactly when the task
outcome is a success. -/
theorem mainTransfer_delete_iff_success (st : CpState) (t : TaskInput)
    (rforced : Bool) (hmv : st.cfg.perform_mv = true) :
    (mainTransfer st t rforced).sourceDeleted = true ↔
      ∃ b, (mainTransfer st t rforced).outcome = TaskOutcome.success b := by
  unfold mainTransfer
  cases h : t.perform_copy <;> dsimp only <;> (repeat' split) <;>
    simp_all

end PerTaskLemmas

section Fixtures

/-- A concrete cloud source URL used by the witnesses. -/
def wSrcUrl : StorageUrl :=
  { kind := UrlKind.cloud, scheme := "gs", bucket_name := "bkt",
    object_name := "obj", generation := none, is_stream := false,
    is_fifo := false, url_string := "gs://bkt/obj" }

/-- A concrete cloud destination URL used by the witnesses. -/
def wDstUrl : StorageUrl :=
  { kind := UrlKind.cloud, scheme := "gs", bucket_name := "bkt2",
    object_name := "dst", generation := none, is_stream := false,
    is_fifo := false, url_string := "gs://bkt2/dst" }

/-- A concrete single-source task whose collaborator oracles all succeed. -/
def wInfo : CopyObjectInfo :=
  { source_storage_url := wSrcUrl, expanded_storage_url := wSrcUrl,
    names_container := false, is_multi_source_request := false,
    exp_dst_url := wDstUrl, have_existing_dst_container := false,
    expanded_result_present := false }

/-- A concrete task whose transfer succeeds with 5 bytes. -/
def wTask : TaskInput :=
  { info := wInfo, insist_container_ok := true, dst_dir_exists := true,
    makedirs_ok := true, dst_url := wDstUrl, dir_file_conflict := false,
    src_dst_same := false, posix_perm_valid := true,
    perform_copy := PerformCopyResult.success 5 true, delete_ok := true }

/-- Command state for a move (`-M`) run without continue-on-error. -/
def wStateMv : CpState :=
  { cfg := { perform_mv := true }, parallel_operations := false,
    recursion_requested := false, manifest := [], op_failure_count := 0,
    total_bytes_transferred := 0 }

/-- Command state for a plain copy run with default options. -/
def wStatePlain : CpState :=
  { cfg := {}, parallel_operations := false,
    recursion_requested := false, manifest := [], op_failure_count := 0,
    total_bytes_transferred := 0 }

end Fixtures

/-- C1: with perform-move set, `CopyFunc` deletes the original source
exactly when the task outcome is a success; no skip (placeholder,
manifest resume, no-clobber, unsupported type, concurrency conflict),
failure or propagated error path deletes it. -/
theorem move_source_deleted_iff_success (st : CpState) (t : TaskInput)
    (hmv : st.cfg.perform_mv = true) :
    (copyFunc st t).sourceDeleted = true ↔
      ∃ b, (copyFunc st t).outcome = TaskOutcome.success b := by
  unfold copyFunc
  cases he : earlyCheck st t
  · dsimp only
    split
    · simp [noEffect]
    · split
      · simp [noEffect]
      · cases h2 : midChecks st t
        · dsimp only
          exact mainTransfer_delete_iff_success st t _ hmv
        · simp [noEffect]
  · simp [noEffect]

theorem move_source_deleted_iff_success_witness :
    wStateMv.cfg.perform_mv = true ∧
      ((copyFunc wStateMv wTask).sourceDeleted = true ↔
        ∃ b, (copyFunc wStateMv wTask).outcome = TaskOutcome.success b) :=
  ⟨rfl, move_source_deleted_iff_success wStateMv wTask rfl⟩

/-- C10: a task whose outcome is not a success (early return, skip, or
error — caught or propagated) leaves `total_bytes_transferred`
unchanged. -/
theorem non_success_leaves_total_bytes_unchanged (st : CpState)
    (t : TaskInput)
    (h : ∀ b, (copyFunc st t).outcome ≠ TaskOutcome.success b) :
    (updateState st t (copyFunc st t)).total_bytes_transferred =
      st.total_bytes_transferred := by
  have hb := copyFunc_bytes_of_not_success st t h
  simp [updateState, hb]

theorem non_success_leaves_total_bytes_unchanged_witness :
    (∀ b,
        (copyFunc wStatePlain
              { wTask with perform_copy := PerformCopyResult.itemExists }).outcome ≠
          TaskOutcome.success b) ∧
      (updateState wStatePlain
            { wTask with perform_copy := PerformCopyResult.itemExists }
            (copyFunc wStatePlain
              { wTask with
                perform_copy :=
                  PerformCopyResult.itemExists })).total_bytes_transferred =
        wStatePlain.total_bytes_transferred :=
  ⟨fun _ h => TaskOutcome.noConfusion h,
    non_success_leaves_total_bytes_unchanged wStatePlain
      { wTask with perform_copy := PerformCopyResult.itemExists }
      (fun _ h => TaskOutcome.noConfusion h)⟩

/-- C8: a cloud sub-directory placeholder source (that passes the
preflight checks preceding the placeholder filter) produces the no-op
result: no transfer, no manifest initialization or record, no source
deletion, no counter change. -/
theorem placeholder_source_is_noop (st : CpState) (t : TaskInput)
    (he : earlyCheck st t = none)
    (hph : IsCloudSubdirPlaceholder t.info.expanded_storage_url = true) :
    copyFunc st t = noEffect (TaskOutcome.skipped SkipReason.placeholder) := by
  simp [copyFunc, he, hph]

/-- A placeholder expanded-source URL (object name ending in a slash). -/
def wPlaceholderUrl : StorageUrl :=
  { kind := UrlKind.cloud, scheme := "gs", bucket_name := "bkt",
    object_name := "dir/", generation := none, is_stream := false,
    is_fifo := false, url_string := "gs://bkt/dir/" }

/-- A task whose expanded source is a placeholder object. -/
def wTaskPlaceholder : TaskInput :=
  { wTask with info := { wInfo with expanded_storage_url := wPlaceholderUrl } }

theorem placeholder_source_is_noop_witness :
    earlyCheck wStateMv wTaskPlaceholder = none ∧
      copyFunc wStateMv wTaskPlaceholder =
        noEffect (TaskOutcome.skipped SkipReason.placeholder) :=
  ⟨rfl, placeholder_source_is_noop wStateMv wTaskPlaceholder rfl (by decide)⟩

/-- Every branch of the transfer block marks the transfer engine as
invoked. -/
theorem mainTransfer_performCopyInvoked (st : CpState) (t : TaskInput)
    (rforced : Bool) :
    (mainTransfer st t rforced).performCopyInvoked = true := by
  unfold mainTransfer
  cases h : t.perform_copy <;> dsimp only <;> (repeat' split) <;> rfl

/-- Command state with the manifest enabled and one `OK` record for the
witness source. -/
def wStateManifest : CpState :=
  { cfg := { use_manifest := true }, parallel_operations := false,
    recursion_requested := false, manifest := [("gs://bkt/obj", "OK")],
    op_failure_count := 0, total_bytes_transferred := 0 }

/-- Command state with the manifest enabled and no records. -/
def wStateManifestEmpty : CpState :=
  { cfg := { use_manifest := true }, parallel_operations := false,
    recursion_requested := false, manifest := [], op_failure_count := 0,
    total_bytes_transferred := 0 }

/-- C7: with the manifest enabled and the preflight checks passing, a
source already recorded `OK` or `skip` is dropped without invoking the
transfer engine, deleting the source, or writing any manifest entry,
while a source recorded `error` or absent from the manifest (that is
neither a placeholder nor stopped by a pre-transfer check) is attempted. -/
theorem manifest_resume_idempotence (st : CpState) (t : TaskInput)
    (hm : st.cfg.use_manifest = true)
    (he : earlyCheck st t = none) :
    (wasSuccessful st.manifest t.info.expanded_storage_url.url_string = true →
      (copyFunc st t).performCopyInvoked = false ∧
        (copyFunc st t).sourceDeleted = false ∧
        (copyFunc st t).manifestInit = false ∧
        (copyFunc st t).manifestSetResult = none) ∧
    ((manifestLookup st.manifest t.info.expanded_storage_url.url_string =
          none ∨
        manifestLookup st.manifest t.info.expanded_storage_url.url_string =
          some "error") →
      IsCloudSubdirPlaceholder t.info.expanded_storage_url = false →
      midChecks st t = none →
      (copyFunc st t).performCopyInvoked = true) := by
  constructor
  · intro hws
    by_cases hph : IsCloudSubdirPlaceholder t.info.expanded_storage_url = true
    · simp [copyFunc, he, hph, noEffect]
    · rw [Bool.not_eq_true] at hph
      simp [copyFunc, he, hph, hm, hws, noEffect]
  · intro hlk hph hmc
    have hws :
        wasSuccessful st.manifest t.info.expanded_storage_url.url_string =
          false := by
      rcases hlk with h | h <;> simp [wasSuccessful, h]
    simp [copyFunc, he, hph, hm, hws, hmc, mainTransfer_performCopyInvoked]

theorem manifest_resume_idempotence_witness :
    wStateManifest.cfg.use_manifest = true ∧
      earlyCheck wStateManifest wTask = none ∧
      wasSuccessful wStateManifest.manifest
          wTask.info.expanded_storage_url.url_string = true ∧
      (copyFunc wStateManifest wTask).performCopyInvoked = false :=
  ⟨rfl, rfl, by decide,
    ((manifest_resume_idempotence wStateManifest wTask rfl rfl).1
        (by decide)).1⟩

/-- C5 amendment: for a task reaching the transfer, each of the three
skip signals leaves the failure counter unchanged; no-clobber and
unsupported-type skips write a `skip` manifest record when the manifest
is enabled, but a concurrency-conflict skip writes no manifest record. -/
theorem skip_signals_not_counted (st : CpState) (t : TaskInput)
    (he : earlyCheck st t = none)
    (hph : IsCloudSubdirPlaceholder t.info.expanded_storage_url = false)
    (hws :
      (st.cfg.use_manifest &&
          wasSuccessful st.manifest t.info.expanded_storage_url.url_string) =
        false)
    (hmc : midChecks st t = none) :
    ((t.perform_copy = PerformCopyResult.itemExists ∨
        t.perform_copy = PerformCopyResult.skipUnsupported ∨
        (t.perform_copy = PerformCopyResult.otherError true ∧
          st.cfg.no_clobber = true)) →
      (copyFunc st t).opFailureIncr = 0 ∧
        (copyFunc st t).manifestSetResult =
          (if st.cfg.use_manifest then some (0, "skip") else none)) ∧
    (t.perform_copy = PerformCopyResult.fileConcurrencySkip →
      (copyFunc st t).opFailureIncr = 0 ∧
        (copyFunc st t).manifestSetResult = none ∧
        (copyFunc st t).outcome =
          TaskOutcome.skipped SkipReason.concurrencyConflict) := by
  have hred :
      copyFunc st t =
        mainTransfer st t (st.cfg.perform_mv && t.info.names_container) := by
    simp [copyFunc, he, hph, hws, hmc]
  rw [hred]
  constructor
  · rintro (hpc | hpc | ⟨hpc, hnc⟩)
    · simp [mainTransfer, hpc]
    · simp [mainTransfer, hpc]
    · simp [mainTransfer, hpc, hnc]
  · intro hpc
    simp [mainTransfer, hpc]

/-- C5 counterexample: a concurrency-conflict skip with the manifest
enabled is a benign skip that is never counted as a failure but — unlike
the other skip kinds — writes no `skip` manifest record for its source. -/
theorem concurrency_skip_writes_no_manifest_record :
    wStateManifestEmpty.cfg.use_manifest = true ∧
      (copyFunc wStateManifestEmpty
            { wTask with
              perform_copy := PerformCopyResult.fileConcurrencySkip }).outcome =
        TaskOutcome.skipped SkipReason.concurrencyConflict ∧
      (copyFunc wStateManifestEmpty
            { wTask with
              perform_copy :=
                PerformCopyResult.fileConcurrencySkip }).opFailureIncr = 0 ∧
      (copyFunc wStateManifestEmpty
            { wTask with
              perform_copy :=
                PerformCopyResult.fileConcurrencySkip }).manifestSetResult =
        none := by
  refine ⟨rfl, ?_, ?_, ?_⟩ <;> decide

theorem skip_signals_not_counted_witness :
    earlyCheck wStateManifestEmpty
        { wTask with perform_copy := PerformCopyResult.itemExists } = none ∧
      ((copyFunc wStateManifestEmpty
              { wTask with
                perform_copy := PerformCopyResult.itemExists }).opFailureIncr =
          0 ∧
        (copyFunc wStateManifestEmpty
              { wTask with
                perform_copy := PerformCopyResult.itemExists }).manifestSetResult =
          (if wStateManifestEmpty.cfg.use_manifest then some (0, "skip")
            else none)) :=
  ⟨rfl,
    (skip_signals_not_counted wStateManifestEmpty
          { wTask with perform_copy := PerformCopyResult.itemExists } rfl
          (by decide) (by decide) rfl).1
      (Or.inl rfl)⟩

section DispatcherLemmas

/-- Dispatch step when the head task raises an exception that terminates
the run (fail-fast mode, or a continue-on-error bypassing class). -/
theorem applyTasks_cons_raised_stop (foe : Bool) (st : CpState)
    (t : TaskInput) (rest : List TaskInput) (e : CpException)
    (ho : (copyFunc st t).outcome = TaskOutcome.raised e)
    (hb : (foe || bypassesContinueOnError e) = true) :
    applyTasks foe st (t :: rest) =
      (updateState st t (copyFunc st t), [copyFunc st t], some e) := by
  have hb2 : foe = true ∨ bypassesContinueOnError e = true := by
    rcases foe with _ | _ <;> simp_all
  simp only [applyTasks]
  simp [ho, hb2]

/-- Dispatch step when the head task does not raise: its result is
folded into the state and dispatch continues with the rest. -/
theorem applyTasks_cons_not_raised (foe : Bool) (st : CpState)
    (t : TaskInput) (rest : List TaskInput)
    (h : isRaisedResult (copyFunc st t) = false) :
    applyTasks foe st (t :: rest) =
      ((applyTasks foe (updateState st t (copyFunc st t)) rest).1,
        copyFunc st t ::
          (applyTasks foe (updateState st t (copyFunc st t)) rest).2.1,
        (applyTasks foe (updateState st t (copyFunc st t)) rest).2.2) := by
  simp only [applyTasks]
  cases ho : (copyFunc st t).outcome <;> simp [isRaisedResult, ho] at h ⊢

end DispatcherLemmas

/-- C2: a move task whose copy succeeded but whose source deletion fails
terminates the run with the deletion error in fail-fast and in
continue-on-error mode alike: no further task is dispatched and the
failure is not absorbed into the failure counter. -/
theorem deletion_failure_always_fatal (foe : Bool) (st : CpState)
    (t : TaskInput) (rest : List TaskInput) (b : Nat) (m : Bool)
    (hmv : st.cfg.perform_mv = true)
    (he : earlyCheck st t = none)
    (hph : IsCloudSubdirPlaceholder t.info.expanded_storage_url = false)
    (hws :
      (st.cfg.use_manifest &&
          wasSuccessful st.manifest t.info.expanded_storage_url.url_string) =
        false)
    (hmc : midChecks st t = none)
    (hpc : t.perform_copy = PerformCopyResult.success b m)
    (hdel : t.delete_ok = false) :
    (applyTasks foe st (t :: rest)).2.2 =
        some CpException.deletionFailure ∧
      (applyTasks foe st (t :: rest)).2.1.length = 1 ∧
      (applyTasks foe st (t :: rest)).1.op_failure_count =
        st.op_failure_count := by
  have ho :
      (copyFunc st t).outcome = TaskOutcome.raised CpException.deletionFailure := by
    simp [copyFunc, he, hph, hws, hmc, mainTransfer, hpc, hmv, hdel]
  have hincr : (copyFunc st t).opFailureIncr = 0 := by
    simp [copyFunc, he, hph, hws, hmc, mainTransfer, hpc, hmv, hdel]
  rw [applyTasks_cons_raised_stop foe st t rest CpException.deletionFailure ho
      (by simp [bypassesContinueOnError])]
  simp [updateState, hincr]

theorem deletion_failure_always_fatal_witness :
    wStateMv.cfg.perform_mv = true ∧
      ({ wTask with delete_ok := false } : TaskInput).delete_ok = false ∧
      (applyTasks false wStateMv [{ wTask with delete_ok := false }]).2.2 =
        some CpException.deletionFailure ∧
      (applyTasks false wStateMv
          [{ wTask with delete_ok := false }]).1.op_failure_count =
        wStateMv.op_failure_count :=
  ⟨rfl, rfl,
    (deletion_failure_always_fatal false wStateMv
        { wTask with delete_ok := false } [] 5 true rfl rfl (by decide) rfl rfl
        rfl rfl).1,
    (deletion_failure_always_fatal false wStateMv
        { wTask with delete_ok := false } [] 5 true rfl rfl (by decide) rfl rfl
        rfl rfl).2.2⟩

/-- C6: a task whose source is a provider-only cloud locator makes
`CopyFunc` raise before any transfer, and the raise terminates the run
in fail-fast and in continue-on-error mode alike, without being counted
as a failed task. -/
theorem provider_only_source_always_fatal (foe : Bool) (st : CpState)
    (t : TaskInput) (rest : List TaskInput)
    (hprov : t.info.source_storage_url.IsProvider = true) :
    (applyTasks foe st (t :: rest)).2.2 =
        some CpException.providerOnlySource ∧
      (applyTasks foe st (t :: rest)).2.1.length = 1 ∧
      (applyTasks foe st (t :: rest)).1.op_failure_count =
        st.op_failure_count ∧
      (copyFunc st t).performCopyInvoked = false := by
  have hcloud : t.info.source_storage_url.IsCloudUrl = true := by
    have h := hprov
    unfold StorageUrl.IsProvider at h
    exact (Bool.and_eq_true _ _).mp h |>.1
  have he : earlyCheck st t = some CpException.providerOnlySource := by
    simp [earlyCheck, hcloud, hprov]
  have hcf :
      copyFunc st t =
        noEffect (TaskOutcome.raised CpException.providerOnlySource) := by
    simp [copyFunc, he]
  rw [applyTasks_cons_raised_stop foe st t rest CpException.providerOnlySource
      (by simp [hcf, noEffect]) (by simp [bypassesContinueOnError])]
  simp [updateState, hcf, noEffect]

/-- A task whose source URL is provider-only (no bucket component). -/
def wTaskProviderOnly : TaskInput :=
  { wTask with
    info :=
      { wInfo with
        source_storage_url :=
          { kind := UrlKind.cloud, scheme := "gs", bucket_name := "",
            object_name := "", generation := none, is_stream := false,
            is_fifo := false, url_string := "gs://" } } }

theorem provider_only_source_always_fatal_witness :
    wTaskProviderOnly.info.source_storage_url.IsProvider = true ∧
      (applyTasks false wStatePlain [wTaskProviderOnly]).2.2 =
        some CpException.providerOnlySource ∧
      (applyTasks false wStatePlain [wTaskProviderOnly]).1.op_failure_count =
        wStatePlain.op_failure_count :=
  ⟨rfl,
    (provider_only_source_always_fatal false wStatePlain wTaskProviderOnly []
        rfl).1,
    (provider_only_source_always_fatal false wStatePlain wTaskProviderOnly []
        rfl).2.2.1⟩

/-- In continue mode, a run in which no task propagates an exception
attempts every task, and the final failure counter is the initial one
plus the number of counted transfer failures in the trace. -/
theorem applyTasks_continue_accounting (tasks : List TaskInput)
    (st : CpState)
    (h : ∀ r ∈ (applyTasks false st tasks).2.1, isRaisedResult r = false) :
    (applyTasks false st tasks).2.2 = none ∧
      (applyTasks false st tasks).2.1.length = tasks.length ∧
      (applyTasks false st tasks).1.op_failure_count =
        st.op_failure_count +
          List.countP isFailedCounted (applyTasks false st tasks).2.1 := by
  induction tasks generalizing st with
  | nil => simp [applyTasks]
  | cons t rest ih =>
    have hmem : copyFunc st t ∈ (applyTasks false st (t :: rest)).2.1 := by
      simp only [applyTasks]
      cases ho : (copyFunc st t).outcome <;> (repeat' split) <;> simp
    have hhead : isRaisedResult (copyFunc st t) = false := h _ hmem
    rw [applyTasks_cons_not_raised false st t rest hhead] at h ⊢
    have hrec :=
      ih (updateState st t (copyFunc st t))
        (fun r hr => h r (List.mem_cons_of_mem _ hr))
    refine ⟨hrec.1, ?_, ?_⟩
    · simp [hrec.2.1]
    · have hop :
          (updateState st t (copyFunc st t)).op_failure_count =
            st.op_failure_count +
              (if isFailedCounted (copyFunc st t) then 1 else 0) := by
        simp [updateState, copyFunc_opFailureIncr]
      rw [List.countP_cons, hrec.2.2, hop]
      cases hif : isFailedCounted (copyFunc st t)
      · simp [hif]
      · simp [hif]
        omega

/-- The trace reported by the dispatch-and-aggregate phase is exactly the
trace produced by the dispatcher. -/
theorem dispatchAndFinish_trace (foe : Bool) (st : CpState)
    (tasks : List TaskInput) (seek : Bool) :
    (dispatchAndFinish foe st tasks seek).trace =
      (applyTasks foe st tasks).2.1 := by
  unfold dispatchAndFinish
  cases (applyTasks foe st tasks).2.2 <;> dsimp only <;> (repeat' split) <;>
    rfl

/-- The seek-ahead flag reported by the dispatch-and-aggregate phase is
the one it was given. -/
theorem dispatchAndFinish_seek (foe : Bool) (st : CpState)
    (tasks : List TaskInput) (seek : Bool) :
    (dispatchAndFinish foe st tasks seek).seekAheadConstructed = seek := by
  unfold dispatchAndFinish
  cases (applyTasks foe st tasks).2.2 <;> dsimp only <;> (repeat' split) <;>
    rfl

/-- C3: in continue mode, a run of N tasks in which no exception
propagates attempts all N tasks; with K of them ending in a counted
transfer failure, the run finishes with `op_failure_count = K` and ends
with the count-bearing `CommandException` when K > 0, or returns
success when K = 0. -/
theorem continue_mode_failure_accounting (st : CpState)
    (tasks : List TaskInput) (seek : Bool)
    (h0 : st.op_failure_count = 0)
    (h : ∀ r ∈ (dispatchAndFinish false st tasks seek).trace,
        isRaisedResult r = false) :
    (dispatchAndFinish false st tasks seek).trace.length = tasks.length ∧
      (dispatchAndFinish false st tasks seek).op_failure_count =
        List.countP isFailedCounted
          (dispatchAndFinish false st tasks seek).trace ∧
      (dispatchAndFinish false st tasks seek).result =
        (if List.countP isFailedCounted
              (dispatchAndFinish false st tasks seek).trace = 0 then
          RunResult.ok
        else
          RunResult.batchFailure
            (List.countP isFailedCounted
              (dispatchAndFinish false st tasks seek).trace)
            (batchFailureMessage
              (List.countP isFailedCounted
                (dispatchAndFinish false st tasks seek).trace))) := by
  rw [dispatchAndFinish_trace] at h ⊢
  have hacc := applyTasks_continue_accounting tasks st h
  have hcount :
      (applyTasks false st tasks).1.op_failure_count =
        List.countP isFailedCounted (applyTasks false st tasks).2.1 := by
    rw [hacc.2.2, h0]
    omega
  simp only [dispatchAndFinish, hacc.1]
  refine ⟨hacc.2.1, ?_⟩
  rcases hz :
      List.countP isFailedCounted (applyTasks false st tasks).2.1 with _ | k
  · rw [hcount, hz]
    simp
  · rw [hcount, hz]
    simp

/-- Continue-on-error command state with default remaining options. -/
def wStateCont : CpState :=
  { cfg := { continue_on_error := true }, parallel_operations := false,
    recursion_requested := false, manifest := [], op_failure_count := 0,
    total_bytes_transferred := 0 }

/-- A task whose transfer fails with a generic (counted) error. -/
def wTaskErr : TaskInput :=
  { wTask with perform_copy := PerformCopyResult.otherError false }

theorem continue_mode_failure_accounting_witness :
    wStateCont.op_failure_count = 0 ∧
      (∀ r ∈ (dispatchAndFinish false wStateCont [wTask, wTaskErr] true).trace,
        isRaisedResult r = false) ∧
      (dispatchAndFinish false wStateCont
            [wTask, wTaskErr] true).trace.length = 2 ∧
      (dispatchAndFinish false wStateCont
            [wTask, wTaskErr] true).op_failure_count =
        List.countP isFailedCounted
          (dispatchAndFinish false wStateCont [wTask, wTaskErr] true).trace :=
  ⟨rfl, by decide,
    (continue_mode_failure_accounting wStateCont [wTask, wTaskErr] true rfl
        (by decide)).1,
    (continue_mode_failure_accounting wStateCont [wTask, wTaskErr] true rfl
        (by decide)).2.1⟩

/-- C4: a flag set that folds to all-versions together with parallel
mode, preserve-acl together with a (nonempty) canned ACL, or wire-gzip
together with local-gzip makes `_ParseOpts` raise a configuration
error, and `RunCommand` then terminates with that error before any task
is dispatched or executed. -/
theorem config_mutual_exclusion (sub_opts : List (String × String))
    (parallel : Bool) (args : List String) (dst0 : StorageUrl)
    (manifest0 : ManifestModel) (tasks : List TaskInput)
    (hconf :
      ((foldOpts sub_opts).all_versions && parallel) = true ∨
        ((foldOpts sub_opts).preserve_acl &&
            truthyOptStr (foldOpts sub_opts).canned_acl) = true ∨
        ((foldOpts sub_opts).gzip_encoded && (foldOpts sub_opts).gzip_local) =
          true) :
    (∃ msg, parseOpts sub_opts parallel = Except.error msg) ∧
      (runCommand sub_opts parallel args dst0 manifest0 tasks).trace = [] ∧
      (∃ msg,
        (runCommand sub_opts parallel args dst0 manifest0 tasks).result =
          RunResult.configError msg) := by
  have herr : ∃ msg, parseOpts sub_opts parallel = Except.error msg := by
    unfold parseOpts checkOpts
    rcases hconf with hc | hc | hc <;> (repeat' split) <;> exact ⟨_, rfl⟩
  obtain ⟨msg, hmsg⟩ := herr
  refine ⟨⟨msg, hmsg⟩, ?_, ⟨msg, ?_⟩⟩ <;> simp [runCommand, hmsg]

theorem config_mutual_exclusion_witness :
    ((foldOpts [("-A", "")]).all_versions && true) = true ∧
      (∃ msg, parseOpts [("-A", "")] true = Except.error msg) ∧
      (runCommand [("-A", "")] true ["src", "dst"] wDstUrl [] []).trace = [] :=
  ⟨by decide,
    (config_mutual_exclusion [("-A", "")] true ["src", "dst"] wDstUrl [] []
        (Or.inl (by decide))).1,
    (config_mutual_exclusion [("-A", "")] true ["src", "dst"] wDstUrl [] []
        (Or.inl (by decide))).2.1⟩

/-- C9: once `RunCommand` reaches the dispatch phase (options parse, the
destination is not stdout or a pipe, the argument count fits the mode),
the seek-ahead iterator is constructed exactly when sources are not read
from stdin: in stream mode it stays unset, otherwise it is built. -/
theorem seek_ahead_skipped_iff_stream_mode (sub_opts : List (String × String))
    (parallel : Bool) (args : List String) (dst0 : StorageUrl)
    (manifest0 : ManifestModel) (tasks : List TaskInput) (cfg : ParseState)
    (hp : parseOpts sub_opts parallel = Except.ok cfg)
    (hcat : (dst0.IsFileUrl && (dst0.object_name == "-" || dst0.is_fifo)) =
      false)
    (hargs :
      if cfg.read_args_from_stdin then args.length = 1
      else 2 ≤ args.length) :
    (runCommand sub_opts parallel args dst0 manifest0
          tasks).seekAheadConstructed =
      !cfg.read_args_from_stdin := by
  unfold runCommand
  rw [hp]
  dsimp only
  cases hs : cfg.read_args_from_stdin
  · rw [hs] at hargs
    simp at hargs
    simp [hcat, hs, dispatchAndFinish_seek, Nat.not_lt.mpr hargs]
  · rw [hs] at hargs
    simp at hargs
    simp [hcat, hs, hargs, dispatchAndFinish_seek]

theorem seek_ahead_skipped_iff_stream_mode_witness :
    parseOpts [("-I", "")] false = Except.ok (foldOpts [("-I", "")]) ∧
      (foldOpts [("-I", "")]).read_args_from_stdin = true ∧
      (runCommand [("-I", "")] false ["gs://bkt2/dst"] wDstUrl []
            []).seekAheadConstructed = false :=
  ⟨rfl, by decide,
    seek_ahead_skipped_iff_stream_mode [("-I", "")] false ["gs://bkt2/dst"]
      wDstUrl [] [] (foldOpts [("-I", "")]) rfl (by decide)
      (by decide)⟩
